import Mathlib

/-!
Shallow embedding of the itinerary-planning core of `app.py`
(haversine distance, travel-time estimation with analytic fallback,
POI scoring, and the greedy itinerary builder), together with theorems
settling the specification claims.

Numbers are modelled as real numbers.  The network routing call inside
`travel_time_between` is modelled by an explicit oracle value
(`Option ℝ`): `some d` is a successful HTTP call whose JSON carries a
route duration of `d` seconds, `none` is any failure (timeout,
malformed response, service unavailable), which in the source is the
`except Exception` path.
-/

namespace App

/-- Python's `math.radians`. -/
noncomputable def radians (x : ℝ) : ℝ := x * (Real.pi / 180)

/-- `haversine_km` from `app.py` (lines 81-88), transcribed literally:
the four inputs are converted to radians (note the source converts in the
order lon1, lat1, lon2, lat2), then
`a = sin(dlat/2)^2 + cos(lat1)*cos(lat2)*sin(dlon/2)^2`,
`c = 2*asin(min(1, sqrt(a)))`, `km = 6371*c`. -/
noncomputable def haversine_km (lat1 lon1 lat2 lon2 : ℝ) : ℝ :=
  let lon1 := radians lon1
  let lat1 := radians lat1
  let lon2 := radians lon2
  let lat2 := radians lat2
  let dlon := lon2 - lon1
  let dlat := lat2 - lat1
  let a := Real.sin (dlat / 2) ^ 2 +
    Real.cos lat1 * Real.cos lat2 * Real.sin (dlon / 2) ^ 2
  let c := 2 * Real.arcsin (min 1 (Real.sqrt a))
  6371 * c

/-- `travel_time_between` from `app.py` (lines 90-104).
`net` is the outcome of the OSRM request: `some d` means the call
succeeded and returned a route duration of `d` seconds (the source then
returns `d / 60` minutes); `none` means any exception was raised, in
which case the source falls back to
`haversine_km(...) / speed * 60` with `speed = 5.0` when `mode == "foot"`
and `40.0` otherwise. -/
noncomputable def travel_time_between (net : Option ℝ)
    (lat1 lon1 lat2 lon2 : ℝ) (mode : String) : ℝ :=
  match net with
  | some d => d / 60
  | none =>
      let dist := haversine_km lat1 lon1 lat2 lon2
      let speed : ℝ := if mode = "foot" then 5.0 else 40.0
      dist / speed * 60

/-- A raw POI record, as the dictionaries consumed by `score_poi` and
`build_greedy_itinerary` expose them: an optional nested
`poi["point"]["lat"]`/`["lon"]`, optional flat `poi["lat"]`/`["lon"]`,
an optional `rate`, `name` and `kinds`. -/
structure POI where
  point_lat : Option ℝ
  point_lon : Option ℝ
  lat : Option ℝ
  lon : Option ℝ
  rate : Option ℝ
  name : Option String
  kinds : Option String

/-- Python's `x or y` on an optional float `x`: `None` and `0.0` are
falsy, so the result is `y` exactly when `x` is absent or zero. -/
noncomputable def pyOr (x y : Option ℝ) : Option ℝ :=
  match x with
  | some v => if v = 0 then y else some v
  | none => y

/-- The coordinate lookup `poi.get("point", {}).get("lat") or poi.get("lat")`
used in `score_poi` (line 108) and `build_greedy_itinerary` (line 120). -/
noncomputable def resolved_lat (p : POI) : Option ℝ := pyOr p.point_lat p.lat

/-- The coordinate lookup `poi.get("point", {}).get("lon") or poi.get("lon")`
used in `score_poi` (line 109) and `build_greedy_itinerary` (line 121). -/
noncomputable def resolved_lon (p : POI) : Option ℝ := pyOr p.point_lon p.lon

/-- `score_poi` from `app.py` (lines 107-114): resolve the coordinates
via the truthiness chain; if either is `None`, return `0`; otherwise
return `poi.get("rate", 0) * 2 - haversine_km(origin, poi)`. -/
noncomputable def score_poi (p : POI) (origin_lat origin_lon : ℝ) : ℝ :=
  match resolved_lat p, resolved_lon p with
  | some lat, some lon =>
      let dist_km := haversine_km origin_lat origin_lon lat lon
      let popularity := p.rate.getD 0
      popularity * 2 - dist_km
  | _, _ => 0

/-- Python's `round(x, 1)` as used on `travel_min` (lines 140 and 158):
the nearest multiple of one tenth.  (Python breaks exact ties to the
even tenth while Mathlib's `round` breaks them upward; none of the
arguments in this development is an exact tie.) -/
noncomputable def round1 (x : ℝ) : ℝ := (round (10 * x) : ℤ) / 10

/-- A POI that survived the coordinate filter at the top of
`build_greedy_itinerary` (lines 119-126): the record together with its
`_lat`, `_lon` and `_score` enrichments. -/
structure ScoredPOI where
  poi : POI
  lat : ℝ
  lon : ℝ
  score : ℝ

/-- One entry of a day's `items` list (lines 136-143): `name`, `lat`,
`lon`, `travel_min` (rounded to one decimal), `visit_min`, `desc`. -/
structure SchedItem where
  name : Option String
  lat : ℝ
  lon : ℝ
  travel_min : ℝ
  visit_min : ℝ
  desc : Option String

/-- One `current_day` dictionary (line 130 / 151): day number, ordered
item list, remaining minutes. -/
structure DayPlan where
  day : ℤ
  items : List SchedItem
  minutes_left : ℝ

/-- The `itinerary` dictionary: its `"days"` list. -/
structure Itinerary where
  days : List DayPlan

/-- The filtering/enrichment loop of `build_greedy_itinerary`
(lines 118-126): drop records whose resolved latitude or longitude is
`None`, attach `_lat`, `_lon` and `_score = score_poi(p, start)`. -/
noncomputable def attach_coords (start_lat start_lon : ℝ) : List POI → List ScoredPOI
  | [] => []
  | p :: ps =>
      match resolved_lat p, resolved_lon p with
      | some lat, some lon =>
          ⟨p, lat, lon, score_poi p start_lat start_lon⟩ ::
            attach_coords start_lat start_lon ps
      | _, _ => attach_coords start_lat start_lon ps

/-- The comparison used by `sorted(poi_list, key=lambda x: -x["_score"])`
(line 127): ascending in the key `-_score`.  Python's sort is a stable
merge sort, modelled by `List.mergeSort` with this comparator. -/
noncomputable def score_le (a b : ScoredPOI) : Bool :=
  decide (-a.score ≤ -b.score)

/-- The scheduled-visit dictionary appended to a day's items for
candidate `p` reached with (unrounded) travel time `travel_min`. -/
noncomputable def mk_item (p : ScoredPOI) (travel_min : ℝ) : SchedItem :=
  ⟨p.poi.name, p.lat, p.lon, round1 travel_min, 60, p.poi.kinds⟩

/-- The `for p in poi_list` loop of `build_greedy_itinerary`
(lines 131-163), as a recursion over the remaining candidates.  The
state is the current position, the day counter, the accumulated
`itinerary["days"]` list and the `current_day`.  The result is the pair
of the accumulated list and the final `current_day` (which after a
`break` on `day > days` is the very day that was just appended — the
Python variable still aliases it). -/
noncomputable def greedy_loop (net : ℝ → ℝ → ℝ → ℝ → Option ℝ) (mode : String)
    (start_lat start_lon : ℝ) (days : ℤ) (budget : ℝ) :
    List ScoredPOI → ℝ → ℝ → ℤ → List DayPlan → DayPlan →
      List DayPlan × DayPlan
  | [], _, _, _, acc, cur => (acc, cur)
  | p :: ps, current_lat, current_lon, day, acc, cur =>
      let travel_min := travel_time_between (net current_lat current_lon p.lat p.lon)
        current_lat current_lon p.lat p.lon mode
      let visit_min : ℝ := 60
      let total_needed := travel_min + visit_min
      if cur.minutes_left ≥ total_needed then
        greedy_loop net mode start_lat start_lon days budget ps p.lat p.lon day acc
          { cur with
            items := cur.items ++ [mk_item p travel_min],
            minutes_left := cur.minutes_left - total_needed }
      else
        let acc' := acc ++ [cur]
        if day + 1 > days then (acc', cur)
        else
          let fresh : DayPlan := ⟨day + 1, [], budget⟩
          let travel2 := travel_time_between (net start_lat start_lon p.lat p.lon)
            start_lat start_lon p.lat p.lon mode
          if fresh.minutes_left ≥ travel2 + visit_min then
            greedy_loop net mode start_lat start_lon days budget ps p.lat p.lon
              (day + 1) acc'
              { day := day + 1,
                items := [mk_item p travel2],
                minutes_left := fresh.minutes_left - (travel2 + visit_min) }
          else
            greedy_loop net mode start_lat start_lon days budget ps
              current_lat current_lon (day + 1) acc' fresh

/-- `build_greedy_itinerary` from `app.py` (lines 116-166): filter and
score the candidates, sort by descending score, run the greedy loop
starting from the origin with `day = 1` and a fresh day of
`hours_per_day * 60` minutes, then append the final `current_day` iff
its item list is non-empty. -/
noncomputable def build_greedy_itinerary (net : ℝ → ℝ → ℝ → ℝ → Option ℝ)
    (pois : List POI) (start_lat start_lon : ℝ) (days : ℤ)
    (hours_per_day : ℝ) (mode : String) : Itinerary :=
  let poi_list := attach_coords start_lat start_lon pois
  let poi_list := poi_list.mergeSort score_le
  let budget := hours_per_day * 60
  let result := greedy_loop net mode start_lat start_lon days budget
    poi_list start_lat start_lon 1 [] ⟨1, [], budget⟩
  if result.2.items.isEmpty then ⟨result.1⟩ else ⟨result.1 ++ [result.2]⟩

/-- Total stored minutes of a day: `sum(v.travel_min + v.visit_min for v in items)`. -/
noncomputable def day_minutes (d : DayPlan) : ℝ :=
  (d.items.map (fun it => it.travel_min + it.visit_min)).sum

/-- `haversine_km` with its let-bindings expanded. -/
theorem haversine_km_eq (lat1 lon1 lat2 lon2 : ℝ) :
    haversine_km lat1 lon1 lat2 lon2 =
      6371 * (2 * Real.arcsin (min 1 (Real.sqrt
        (Real.sin ((radians lat2 - radians lat1) / 2) ^ 2 +
          Real.cos (radians lat1) * Real.cos (radians lat2) *
            Real.sin ((radians lon2 - radians lon1) / 2) ^ 2)))) := rfl

/-- The haversine distance is non-negative. -/
theorem haversine_nonneg (lat1 lon1 lat2 lon2 : ℝ) :
    0 ≤ haversine_km lat1 lon1 lat2 lon2 := by
  rw [haversine_km_eq]
  have h0 : 0 ≤ min 1 (Real.sqrt
      (Real.sin ((radians lat2 - radians lat1) / 2) ^ 2 +
        Real.cos (radians lat1) * Real.cos (radians lat2) *
          Real.sin ((radians lon2 - radians lon1) / 2) ^ 2)) :=
    le_min zero_le_one (Real.sqrt_nonneg _)
  have h1 := Real.arcsin_nonneg.mpr h0
  linarith

/-- The haversine distance of a point to itself is zero. -/
theorem haversine_self (lat lon : ℝ) : haversine_km lat lon lat lon = 0 := by
  rw [haversine_km_eq]
  simp

/-- C7: for all points A and B, `haversine_km(A, B) = haversine_km(B, A)`,
and `haversine_km(A, A) = 0`. -/
theorem claim_C7_haversine_symm_self (lat1 lon1 lat2 lon2 : ℝ) :
    haversine_km lat1 lon1 lat2 lon2 = haversine_km lat2 lon2 lat1 lon1 ∧
    haversine_km lat1 lon1 lat1 lon1 = 0 := by
  refine ⟨?_, haversine_self lat1 lon1⟩
  have key : ∀ x y : ℝ, Real.sin ((x - y) / 2) ^ 2 = Real.sin ((y - x) / 2) ^ 2 := by
    intro x y
    rw [show (x - y) / 2 = -((y - x) / 2) by ring, Real.sin_neg]
    ring
  rw [haversine_km_eq, haversine_km_eq,
    key (radians lat2) (radians lat1), key (radians lon2) (radians lon1),
    mul_comm (Real.cos (radians lat1)) (Real.cos (radians lat2))]

/-- C9: `haversine_km` is total; its `asin` argument is clamped to at
most `1` by `min(1, sqrt(a))`, so it always returns a value that is
non-negative and at most `pi * 6371` (in the embedding, totality is by
construction: no domain error is possible). -/
theorem claim_C9_haversine_total_bounds (lat1 lon1 lat2 lon2 : ℝ) :
    min 1 (Real.sqrt
      (Real.sin ((radians lat2 - radians lat1) / 2) ^ 2 +
        Real.cos (radians lat1) * Real.cos (radians lat2) *
          Real.sin ((radians lon2 - radians lon1) / 2) ^ 2)) ≤ 1 ∧
    0 ≤ haversine_km lat1 lon1 lat2 lon2 ∧
    haversine_km lat1 lon1 lat2 lon2 ≤ Real.pi * 6371 := by
  refine ⟨min_le_left _ _, haversine_nonneg _ _ _ _, ?_⟩
  rw [haversine_km_eq]
  have h := Real.arcsin_le_pi_div_two (min 1 (Real.sqrt
    (Real.sin ((radians lat2 - radians lat1) / 2) ^ 2 +
      Real.cos (radians lat1) * Real.cos (radians lat2) *
        Real.sin ((radians lon2 - radians lon1) / 2) ^ 2)))
  linarith

/-- C4: whenever the network routing call fails (modelled by the oracle
value `none`), `travel_time_between` returns exactly
`haversine_km(A,B) / speed * 60` with `speed = 5.0` when the mode is
`"foot"` and `40.0` for any other mode; in the embedding the function is
total, so no exception reaches the caller. -/
theorem claim_C4_fallback (lat1 lon1 lat2 lon2 : ℝ) (mode : String) :
    travel_time_between none lat1 lon1 lat2 lon2 mode =
      haversine_km lat1 lon1 lat2 lon2 /
        (if mode = "foot" then 5.0 else 40.0) * 60 := rfl

/-- C5: `score_poi` returns `rate * 2 - haversine_km(origin, poi)` where
the rate defaults to 0 when absent and the coordinates are resolved by
the nested-`point`-field-first, then flat-field chain; a POI whose
coordinates cannot be resolved scores exactly 0. -/
theorem claim_C5_score_formula (p : POI) (origin_lat origin_lon : ℝ) :
    (∃ lat lon, resolved_lat p = some lat ∧ resolved_lon p = some lon ∧
      score_poi p origin_lat origin_lon =
        p.rate.getD 0 * 2 - haversine_km origin_lat origin_lon lat lon) ∨
    ((resolved_lat p = none ∨ resolved_lon p = none) ∧
      score_poi p origin_lat origin_lon = 0) := by
  cases hlat : resolved_lat p with
  | none =>
      exact Or.inr ⟨Or.inl rfl, by simp [score_poi, hlat]⟩
  | some lat =>
      cases hlon : resolved_lon p with
      | none =>
          exact Or.inr ⟨Or.inr rfl, by simp [score_poi, hlat, hlon]⟩
      | some lon =>
          exact Or.inl ⟨lat, lon, rfl, rfl, by simp [score_poi, hlat, hlon]⟩

/-- C10: a nested `point.lat` or `point.lon` equal to `0` is falsy in
Python, so the resolution chain skips it in favor of the corresponding
flat `lat`/`lon` field; when that flat field is absent too, the POI is
treated as unplaceable — it scores `0` and is filtered out of the
itinerary entirely — even though latitude 0 (equator) and longitude 0
(prime meridian) are valid coordinates. -/
theorem claim_C10_zero_coordinate_truthiness (p : POI)
    (origin_lat origin_lon : ℝ) (net : ℝ → ℝ → ℝ → ℝ → Option ℝ)
    (days : ℤ) (hours_per_day : ℝ) (mode : String) :
    (p.point_lat = some 0 → resolved_lat p = p.lat) ∧
    (p.point_lon = some 0 → resolved_lon p = p.lon) ∧
    ((p.point_lat = some 0 ∧ p.lat = none) ∨
        (p.point_lon = some 0 ∧ p.lon = none) →
      score_poi p origin_lat origin_lon = 0 ∧
      build_greedy_itinerary net [p] origin_lat origin_lon days
        hours_per_day mode = ⟨[]⟩) := by
  refine ⟨fun h0 => by simp [resolved_lat, pyOr, h0],
    fun h0 => by simp [resolved_lon, pyOr, h0], fun hcase => ?_⟩
  rcases hcase with ⟨ha, hb⟩ | ⟨ha, hb⟩
  · have hres : resolved_lat p = none := by simp [resolved_lat, pyOr, ha, hb]
    refine ⟨by simp [score_poi, hres], ?_⟩
    have hattach : attach_coords origin_lat origin_lon [p] = [] := by
      simp [attach_coords, hres]
    simp [build_greedy_itinerary, hattach, greedy_loop]
  · have hres : resolved_lon p = none := by simp [resolved_lon, pyOr, ha, hb]
    refine ⟨?_, ?_⟩
    · cases hl : resolved_lat p <;> simp [score_poi, hres, hl]
    · have hattach : attach_coords origin_lat origin_lon [p] = [] := by
        cases hl : resolved_lat p <;> simp [attach_coords, hres, hl]
      simp [build_greedy_itinerary, hattach, greedy_loop]

/-- Witness for C10 at a POI with `point = {lat: 0, lon: 0}` (equator
and prime meridian) and neither flat field, exercising both the
latitude and the longitude resolution chains. -/
theorem claim_C10_zero_coordinate_truthiness_witness :
    resolved_lat ⟨some 0, some 0, none, none, none, none, none⟩ =
      (⟨some 0, some 0, none, none, none, none, none⟩ : POI).lat ∧
    resolved_lon ⟨some 0, some 0, none, none, none, none, none⟩ =
      (⟨some 0, some 0, none, none, none, none, none⟩ : POI).lon ∧
    score_poi ⟨some 0, some 0, none, none, none, none, none⟩ 0 0 = 0 ∧
    build_greedy_itinerary (fun _ _ _ _ => none)
      [⟨some 0, some 0, none, none, none, none, none⟩] 0 0 1 8 "foot" = ⟨[]⟩ := by
  obtain ⟨h1, h2, h3⟩ := claim_C10_zero_coordinate_truthiness
    ⟨some 0, some 0, none, none, none, none, none⟩ 0 0
    (fun _ _ _ _ => none) 1 8 "foot"
  exact ⟨h1 rfl, h2 rfl, (h3 (Or.inl ⟨rfl, rfl⟩)).1, (h3 (Or.inl ⟨rfl, rfl⟩)).2⟩

/-- The sort comparator is transitive. -/
theorem score_le_trans (a b c : ScoredPOI) :
    score_le a b → score_le b c → score_le a c := by
  simp only [score_le, decide_eq_true_eq]
  exact le_trans

/-- The sort comparator is total. -/
theorem score_le_total (a b : ScoredPOI) : score_le a b || score_le b a := by
  simp only [score_le, Bool.or_eq_true, decide_eq_true_eq]
  exact le_total _ _

/-- C8: the sort of the filtered candidates is by score descending and
stable: the sorted sequence is pairwise non-increasing in `_score`, and
any two candidates with identical `_score` keep their relative input
order (as a pair they remain a sublist of the sorted output). -/
theorem claim_C8_stable_sort (l : List ScoredPOI) (a b : ScoredPOI)
    (hscore : a.score = b.score) (hsub : [a, b].Sublist l) :
    [a, b].Sublist (l.mergeSort score_le) ∧
    (l.mergeSort score_le).Pairwise (fun x y => y.score ≤ x.score) := by
  constructor
  · refine List.pair_sublist_mergeSort score_le_trans score_le_total ?_ hsub
    simp [score_le, hscore]
  · have h := List.sorted_mergeSort score_le_trans score_le_total l
    refine h.imp ?_
    intro x y hxy
    simpa [score_le, neg_le_neg_iff] using hxy

/-- Witness for C8 on a two-element list of equal-score candidates. -/
theorem claim_C8_stable_sort_witness :
    (⟨⟨none, none, some 1, some 1, none, some "A", none⟩, 1, 1, 5⟩ : ScoredPOI).score =
      (⟨⟨none, none, some 2, some 2, none, some "B", none⟩, 2, 2, 5⟩ : ScoredPOI).score ∧
    [(⟨⟨none, none, some 1, some 1, none, some "A", none⟩, 1, 1, 5⟩ : ScoredPOI),
      ⟨⟨none, none, some 2, some 2, none, some "B", none⟩, 2, 2, 5⟩].Sublist
      [⟨⟨none, none, some 1, some 1, none, some "A", none⟩, 1, 1, 5⟩,
        ⟨⟨none, none, some 2, some 2, none, some "B", none⟩, 2, 2, 5⟩] ∧
    [(⟨⟨none, none, some 1, some 1, none, some "A", none⟩, 1, 1, 5⟩ : ScoredPOI),
      ⟨⟨none, none, some 2, some 2, none, some "B", none⟩, 2, 2, 5⟩].Sublist
      ([⟨⟨none, none, some 1, some 1, none, some "A", none⟩, 1, 1, 5⟩,
        ⟨⟨none, none, some 2, some 2, none, some "B", none⟩, 2, 2, 5⟩].mergeSort score_le) := by
  refine ⟨rfl, List.Sublist.refl _, ?_⟩
  exact (claim_C8_stable_sort
    [⟨⟨none, none, some 1, some 1, none, some "A", none⟩, 1, 1, 5⟩,
      ⟨⟨none, none, some 2, some 2, none, some "B", none⟩, 2, 2, 5⟩]
    ⟨⟨none, none, some 1, some 1, none, some "A", none⟩, 1, 1, 5⟩
    ⟨⟨none, none, some 2, some 2, none, some "B", none⟩, 2, 2, 5⟩
    rfl (List.Sublist.refl _)).1

/-- C6: when a candidate does not fit the current day and the day
counter is still within `days`, the loop recomputes the travel time for
that same candidate from the original trip origin (`start_lat`,
`start_lon`), not from the last visited point; if it fits, it is
appended to the fresh day and the position and remaining minutes are
updated, and if it still does not fit even from the origin it is
silently dropped: the loop continues on the remaining candidates `ps`
only, so the candidate is never retried on a later day. -/
theorem claim_C6_day_boundary_policy (net : ℝ → ℝ → ℝ → ℝ → Option ℝ)
    (mode : String) (start_lat start_lon : ℝ) (days : ℤ) (budget : ℝ)
    (p : ScoredPOI) (ps : List ScoredPOI) (current_lat current_lon : ℝ)
    (day : ℤ) (acc : List DayPlan) (cur : DayPlan)
    (hnofit : ¬ cur.minutes_left ≥
      travel_time_between (net current_lat current_lon p.lat p.lon)
        current_lat current_lon p.lat p.lon mode + 60)
    (hday : ¬ day + 1 > days) :
    greedy_loop net mode start_lat start_lon days budget (p :: ps)
        current_lat current_lon day acc cur =
      (if budget ≥ travel_time_between (net start_lat start_lon p.lat p.lon)
          start_lat start_lon p.lat p.lon mode + 60 then
        greedy_loop net mode start_lat start_lon days budget ps p.lat p.lon
          (day + 1) (acc ++ [cur])
          ⟨day + 1,
            [mk_item p (travel_time_between (net start_lat start_lon p.lat p.lon)
              start_lat start_lon p.lat p.lon mode)],
            budget - (travel_time_between (net start_lat start_lon p.lat p.lon)
              start_lat start_lon p.lat p.lon mode + 60)⟩
      else
        greedy_loop net mode start_lat start_lon days budget ps
          current_lat current_lon (day + 1) (acc ++ [cur])
          ⟨day + 1, [], budget⟩) := by
  rw [greedy_loop]
  simp only [if_neg hnofit, if_neg hday]

/-- Witness for C6: a concrete state in which the candidate does not fit
the exhausted current day but does fit a fresh day from the origin. -/
theorem claim_C6_day_boundary_policy_witness :
    greedy_loop (fun _ _ _ _ => some 60) "foot" 0 0 2 200
        [⟨⟨none, none, some 0, some 1, none, some "A", none⟩, 0, 1, 0⟩] 0 0 1 []
        ⟨1, [], 0⟩ =
      (if (200 : ℝ) ≥ travel_time_between (some 60) 0 0 0 1 "foot" + 60 then
        greedy_loop (fun _ _ _ _ => some 60) "foot" 0 0 2 200 [] 0 1 2
          [⟨1, [], 0⟩]
          ⟨2, [mk_item ⟨⟨none, none, some 0, some 1, none, some "A", none⟩, 0, 1, 0⟩
                (travel_time_between (some 60) 0 0 0 1 "foot")],
            200 - (travel_time_between (some 60) 0 0 0 1 "foot" + 60)⟩
      else
        greedy_loop (fun _ _ _ _ => some 60) "foot" 0 0 2 200 [] 0 0 2
          [⟨1, [], 0⟩] ⟨2, [], 200⟩) :=
  claim_C6_day_boundary_policy (fun _ _ _ _ => some 60) "foot" 0 0 2 200
    ⟨⟨none, none, some 0, some 1, none, some "A", none⟩, 0, 1, 0⟩ [] 0 0 1 []
    ⟨1, [], 0⟩ (by norm_num [travel_time_between]) (by norm_num)

/-- C2 exhibits a code bug: with `days = 1`, `hours_per_day = 1`
(60 minutes) and two candidates each needing travel 1 min + visit 60 min
(the network oracle reports 60-second routes), the first candidate does
not fit day 1, and the `else` branch appends the still-empty day 1 to
the itinerary unconditionally before breaking.  The result is one
`DayPlan` with zero visits — not the zero-day itinerary the claim
requires. -/
theorem claim_C2_code_bug_empty_day :
    (build_greedy_itinerary (fun _ _ _ _ => some 60)
      [⟨none, none, some 0, some 1, none, some "A", none⟩,
        ⟨none, none, some 0, some 1, none, some "A", none⟩] 0 0 1 1 "foot").days
      = [⟨1, [], 60⟩] ∧
    ∃ d ∈ (build_greedy_itinerary (fun _ _ _ _ => some 60)
      [⟨none, none, some 0, some 1, none, some "A", none⟩,
        ⟨none, none, some 0, some 1, none, some "A", none⟩] 0 0 1 1 "foot").days,
      d.items = [] := by
  have hsort : (attach_coords 0 0
      [⟨none, none, some 0, some 1, none, some "A", none⟩,
        ⟨none, none, some 0, some 1, none, some "A", none⟩]).mergeSort score_le =
      attach_coords 0 0
      [⟨none, none, some 0, some 1, none, some "A", none⟩,
        ⟨none, none, some 0, some 1, none, some "A", none⟩] := by
    apply List.mergeSort_of_sorted
    norm_num [attach_coords, resolved_lat, resolved_lon, pyOr, score_le]
  have hdays : (build_greedy_itinerary (fun _ _ _ _ => some 60)
      [⟨none, none, some 0, some 1, none, some "A", none⟩,
        ⟨none, none, some 0, some 1, none, some "A", none⟩] 0 0 1 1 "foot").days
      = [⟨1, [], 60⟩] := by
    simp only [build_greedy_itinerary, hsort]
    norm_num [attach_coords, resolved_lat, resolved_lon, pyOr, greedy_loop,
      travel_time_between]
  exact ⟨hdays, ⟨1, [], 60⟩, by simp [hdays], rfl⟩

/-- C1 exhibits a code bug: with `dayCount = 1` and two candidates where
the first (at the origin, zero travel) fills day 1 exactly and the
second does not fit even on a fresh day, the `else` branch appends the
non-empty day 1 and then breaks; the final flush appends the very same
day again because the `current_day` variable still refers to it.  The
returned itinerary has 2 entries — more than `dayCount = 1` — instead
of the single day the claim requires. -/
theorem claim_C1_code_bug_duplicate_day :
    (build_greedy_itinerary
      (fun _ _ _ lon2 => if lon2 = 0 then some 0 else some 600)
      [⟨none, none, some 0, some 0, none, some "A", none⟩,
        ⟨none, none, some 0, some 1, none, some "B", none⟩] 0 0 1 1 "foot").days
      = [⟨1, [⟨some "A", 0, 0, 0, 60, none⟩], 0⟩,
          ⟨1, [⟨some "A", 0, 0, 0, 60, none⟩], 0⟩] ∧
    1 < (build_greedy_itinerary
      (fun _ _ _ lon2 => if lon2 = 0 then some 0 else some 600)
      [⟨none, none, some 0, some 0, none, some "A", none⟩,
        ⟨none, none, some 0, some 1, none, some "B", none⟩] 0 0 1 1 "foot").days.length := by
  have hsort : (attach_coords 0 0
      [⟨none, none, some 0, some 0, none, some "A", none⟩,
        ⟨none, none, some 0, some 1, none, some "B", none⟩]).mergeSort score_le =
      attach_coords 0 0
      [⟨none, none, some 0, some 0, none, some "A", none⟩,
        ⟨none, none, some 0, some 1, none, some "B", none⟩] := by
    apply List.mergeSort_of_sorted
    norm_num [attach_coords, resolved_lat, resolved_lon, pyOr, score_le,
      score_poi, haversine_self, List.pairwise_cons]
    linarith [haversine_nonneg 0 0 0 1]
  have hdays : (build_greedy_itinerary
      (fun _ _ _ lon2 => if lon2 = 0 then some 0 else some 600)
      [⟨none, none, some 0, some 0, none, some "A", none⟩,
        ⟨none, none, some 0, some 1, none, some "B", none⟩] 0 0 1 1 "foot").days
      = [⟨1, [⟨some "A", 0, 0, 0, 60, none⟩], 0⟩,
          ⟨1, [⟨some "A", 0, 0, 0, 60, none⟩], 0⟩] := by
    simp only [build_greedy_itinerary, hsort]
    norm_num [attach_coords, resolved_lat, resolved_lon, pyOr, greedy_loop,
      travel_time_between, mk_item, round1]
  exact ⟨hdays, by rw [hdays]; norm_num⟩

/-- Rounding to one decimal rounds 20.06 up to 20.1. -/
theorem round1_2006 : round1 (1003 / 50 : ℝ) = 201 / 10 := by
  have h2 : round ((10 : ℝ) * (1003 / 50)) = (201 : ℤ) := by
    rw [round_eq, Int.floor_eq_iff]
    norm_num
  simp only [round1]
  rw [h2]
  norm_num

/-- Rounding to one decimal rounds 19.96 down to 20.0. -/
theorem round1_1996 : round1 (499 / 25 : ℝ) = 20 := by
  have h2 : round ((10 : ℝ) * (499 / 25)) = (200 : ℤ) := by
    rw [round_eq, Int.floor_eq_iff]
    norm_num
  simp only [round1]
  rw [h2]
  norm_num

/-- C3 counterexample: the stored `travel_min` values are rounded to one
decimal (`round(travel_min, 1)`), while the capacity check uses the
unrounded values.  With `hours_per_day = 4` (240 minutes) and three
candidates whose route durations give travel times 20.06, 19.96 and
19.96 minutes, all three fit (unrounded total 239.98), but the stored
sums are `20.1 + 60 + 20.0 + 60 + 20.0 + 60 = 240.1 > 240`, so the
claimed bound `sum(travel_min + visit_min) <= hoursPerDay*60` fails. -/
theorem claim_C3_counterexample :
    ¬ (∀ d ∈ (build_greedy_itinerary
        (fun _ lon1 _ _ => if lon1 = 0 then some (6018 / 5) else some (5988 / 5))
        [⟨none, none, some 0, some 1, none, some "A", none⟩,
          ⟨none, none, some 0, some 1, none, some "A", none⟩,
          ⟨none, none, some 0, some 1, none, some "A", none⟩] 0 0 1 4 "foot").days,
      day_minutes d ≤ 4 * 60) := by
  have hsort : (attach_coords 0 0
      [⟨none, none, some 0, some 1, none, some "A", none⟩,
        ⟨none, none, some 0, some 1, none, some "A", none⟩,
        ⟨none, none, some 0, some 1, none, some "A", none⟩]).mergeSort score_le =
      attach_coords 0 0
      [⟨none, none, some 0, some 1, none, some "A", none⟩,
        ⟨none, none, some 0, some 1, none, some "A", none⟩,
        ⟨none, none, some 0, some 1, none, some "A", none⟩] := by
    apply List.mergeSort_of_sorted
    norm_num [attach_coords, resolved_lat, resolved_lon, pyOr, score_le,
      List.pairwise_cons]
  have hdays : (build_greedy_itinerary
      (fun _ lon1 _ _ => if lon1 = 0 then some (6018 / 5) else some (5988 / 5))
      [⟨none, none, some 0, some 1, none, some "A", none⟩,
        ⟨none, none, some 0, some 1, none, some "A", none⟩,
        ⟨none, none, some 0, some 1, none, some "A", none⟩] 0 0 1 4 "foot").days
      = [⟨1, [⟨some "A", 0, 1, 201 / 10, 60, none⟩,
            ⟨some "A", 0, 1, 20, 60, none⟩,
            ⟨some "A", 0, 1, 20, 60, none⟩], 1 / 50⟩] := by
    simp only [build_greedy_itinerary, hsort]
    norm_num [attach_coords, resolved_lat, resolved_lon, pyOr, greedy_loop,
      travel_time_between, mk_item, round1_2006, round1_1996]
  intro h
  have hmem := h ⟨1, [⟨some "A", 0, 1, 201 / 10, 60, none⟩,
      ⟨some "A", 0, 1, 20, 60, none⟩,
      ⟨some "A", 0, 1, 20, 60, none⟩], 1 / 50⟩ (by simp [hdays])
  simp only [day_minutes, List.map_cons, List.map_nil, List.sum_cons,
    List.sum_nil] at hmem
  norm_num at hmem

/-- Rounding to one decimal overestimates by at most `1/20`. -/
theorem round1_le_add (x : ℝ) : round1 x ≤ x + 1 / 20 := by
  have h := round_le_add_half (10 * x)
  simp only [round1]
  linarith

/-- Invariant of the greedy loop: the current day's stored minutes are
bounded by the budget already consumed plus the rounding slack, its
remaining-minutes counter is non-negative, and every closed day's stored
minutes are at most the budget plus `1/20` per visit. -/
theorem greedy_loop_invariant (net : ℝ → ℝ → ℝ → ℝ → Option ℝ) (mode : String)
    (start_lat start_lon : ℝ) (days : ℤ) (budget : ℝ) (hb : 0 ≤ budget) :
    ∀ (l : List ScoredPOI) (clat clon : ℝ) (day : ℤ) (acc : List DayPlan)
      (cur : DayPlan),
    0 ≤ cur.minutes_left →
    day_minutes cur ≤ budget - cur.minutes_left + cur.items.length * (1 / 20) →
    (∀ d ∈ acc, 0 ≤ d.minutes_left ∧
      day_minutes d ≤ budget + d.items.length * (1 / 20)) →
    (∀ d ∈ (greedy_loop net mode start_lat start_lon days budget
        l clat clon day acc cur).1,
      0 ≤ d.minutes_left ∧
      day_minutes d ≤ budget + d.items.length * (1 / 20)) ∧
    0 ≤ (greedy_loop net mode start_lat start_lon days budget
        l clat clon day acc cur).2.minutes_left ∧
    day_minutes (greedy_loop net mode start_lat start_lon days budget
        l clat clon day acc cur).2 ≤
      budget - (greedy_loop net mode start_lat start_lon days budget
        l clat clon day acc cur).2.minutes_left +
      (greedy_loop net mode start_lat start_lon days budget
        l clat clon day acc cur).2.items.length * (1 / 20) := by
  intro l
  induction l with
  | nil =>
      intro clat clon day acc cur h1 h2 h3
      simp only [greedy_loop]
      exact ⟨h3, h1, h2⟩
  | cons p ps ih =>
      intro clat clon day acc cur h1 h2 h3
      simp only [greedy_loop]
      split_ifs with hfit hbreak hfresh
      · -- candidate fits the current day
        apply ih
        · simp only []
          linarith [hfit]
        · simp only [day_minutes, List.map_append, List.sum_append,
            List.map_cons, List.map_nil, List.sum_cons, List.sum_nil,
            List.length_append, List.length_cons, List.length_nil, mk_item]
          have hr := round1_le_add (travel_time_between
            (net clat clon p.lat p.lon) clat clon p.lat p.lon mode)
          simp only [day_minutes] at h2
          push_cast
          linarith
        · exact h3
      · -- day exhausted: break; `cur` was just appended and is returned too
        refine ⟨?_, h1, h2⟩
        intro d hd
        rcases List.mem_append.mp hd with hd | hd
        · exact h3 d hd
        · rcases List.mem_singleton.mp hd with rfl
          exact ⟨h1, by linarith⟩
      · -- fits a fresh day computed from the origin
        apply ih
        · simp only []
          simp only [] at hfresh
          linarith [hfresh]
        · simp only [day_minutes, List.map_cons, List.map_nil, List.sum_cons,
            List.sum_nil, List.length_cons, List.length_nil, mk_item]
          have hr := round1_le_add (travel_time_between
            (net start_lat start_lon p.lat p.lon) start_lat start_lon
            p.lat p.lon mode)
          push_cast
          linarith
        · intro d hd
          rcases List.mem_append.mp hd with hd | hd
          · exact h3 d hd
          · rcases List.mem_singleton.mp hd with rfl
            exact ⟨h1, by linarith⟩
      · -- does not fit even from the origin: dropped, fresh empty day
        apply ih
        · exact hb
        · simp [day_minutes]
        · intro d hd
          rcases List.mem_append.mp hd with hd | hd
          · exact h3 d hd
          · rcases List.mem_singleton.mp hd with rfl
            exact ⟨h1, by linarith⟩

/-- C3 amended: each day's `minutes_left` counter starts at
`hoursPerDay*60`, never becomes negative (an append that would make it
negative is rejected), so the unrounded travel+visit total of every day
is at most `hoursPerDay*60`; the stored `travel_min` values are rounded
to one decimal, so the stored sum can exceed the budget, by at most
`1/20` of a minute per visit. -/
theorem claim_C3_amended_capacity (net : ℝ → ℝ → ℝ → ℝ → Option ℝ)
    (pois : List POI) (start_lat start_lon : ℝ) (days : ℤ)
    (hours_per_day : ℝ) (mode : String) (h : 0 ≤ hours_per_day) :
    ∀ d ∈ (build_greedy_itinerary net pois start_lat start_lon days
        hours_per_day mode).days,
      0 ≤ d.minutes_left ∧
      day_minutes d ≤ hours_per_day * 60 + d.items.length * (1 / 20) := by
  have hb : (0 : ℝ) ≤ hours_per_day * 60 := by linarith
  have H := greedy_loop_invariant net mode start_lat start_lon days
    (hours_per_day * 60) hb
    ((attach_coords start_lat start_lon pois).mergeSort score_le)
    start_lat start_lon 1 [] ⟨1, [], hours_per_day * 60⟩
    hb (by simp [day_minutes]) (by simp)
  intro d hd
  simp only [build_greedy_itinerary, apply_ite Itinerary.days] at hd
  split at hd
  · exact H.1 d hd
  · rcases List.mem_append.mp hd with hd | hd
    · exact H.1 d hd
    · rcases List.mem_singleton.mp hd with rfl
      exact ⟨H.2.1, by linarith [H.2.2, H.2.1]⟩

/-- Witness for the amended C3 at a concrete input. -/
theorem claim_C3_amended_capacity_witness :
    (0 : ℝ) ≤ 8 ∧
    ∀ d ∈ (build_greedy_itinerary (fun _ _ _ _ => some 0) [] 0 0 1 8
        "foot").days,
      0 ≤ d.minutes_left ∧
      day_minutes d ≤ 8 * 60 + d.items.length * (1 / 20) :=
  ⟨by norm_num,
    claim_C3_amended_capacity (fun _ _ _ _ => some 0) [] 0 0 1 8 "foot"
      (by norm_num)⟩

end App
